import Mathlib

/-!
# Whisker Menu: `Command` and `SearchPage`

A shallow embedding of `panel-plugin/command.cpp` and `src/search_page.cpp`.

* Toolkit objects are records of the attributes the code sets on them.
* External calls (program lookup, process spawn, the error dialog) are
  results supplied by an environment record, and every call is written to an
  event trace, so that "is not consulted" and "is shown" are statements about
  the trace.
* `gchar*` values that the code only copies and hands on are their text
  (`none` is `NULL`).  The command string is also compared by address in
  `Command::set`, so it is a `CString`: an address together with the text
  stored there.
* `unsigned int` and `gint` are `Nat` and `Int` with explicit reduction
  modulo `2^32`.
-/

namespace WhiskerMenu

/-! ## command.cpp -/

/-- The anonymous status enum: `WHISKERMENU_COMMAND_UNCHECKED = -1`. -/
def WHISKERMENU_COMMAND_UNCHECKED : Int := -1

/-- The anonymous status enum: `WHISKERMENU_COMMAND_INVALID` follows `-1`. -/
def WHISKERMENU_COMMAND_INVALID : Int := 0

/-- The anonymous status enum: `WHISKERMENU_COMMAND_VALID`. -/
def WHISKERMENU_COMMAND_VALID : Int := 1

/-- A non-`NULL` `gchar*`: the address held and the text stored at it. -/
structure CString where
  addr : Nat
  text : String
deriving DecidableEq, Repr

/-- The address a `const gchar*` holds; `none` is `NULL`.  This is what the
C++ operators `==` and `!=` compare. -/
def ptr (s : Option CString) : Option Nat := s.map CString.addr

/-- The text a `const gchar*` points to; `none` is `NULL`. -/
def str (s : Option CString) : Option String := s.map CString.text

/-- `g_strdup`: `NULL` for `NULL`, otherwise a copy of the text in the block
the allocator hands out, whose address is `fresh`. -/
def g_strdup (fresh : Nat) (s : Option CString) : Option CString :=
  s.map (fun p => { addr := fresh, text := p.text })

/-- A `GError` as reported by the spawn call. -/
structure GError where
  code : Int
  message : String
deriving DecidableEq, Repr

/-- The external collaborators of `Command`, as the results they give. -/
structure Env where
  /-- Result of `g_find_program_in_path(program)`: the path found, or `NULL`. -/
  g_find_program_in_path : Option String → Option String
  /-- Result of `g_spawn_command_line_async(command_line, &error)`: `none`
  when it returns `TRUE`, the error it sets when it returns `FALSE`. -/
  g_spawn_command_line_async : Option String → Option GError

/-- Calls made to the external collaborators. -/
inductive Event where
  | find_program (program : Option String)
  | spawn (command_line : Option String)
  | show_error (error : GError) (primary_text : Option String)
deriving DecidableEq, Repr

/-- Which constructor made a widget. -/
inductive WidgetKind where
  | button
  | image_menu_item
deriving DecidableEq, Repr

/-- Icon sizes used by `Command`. -/
inductive GtkIconSize where
  | GTK_ICON_SIZE_MENU
  | GTK_ICON_SIZE_LARGE_TOOLBAR
deriving DecidableEq, Repr

/-- The signal a widget has connected to its `Command`. -/
inductive Signal where
  | clicked
  | activate
deriving DecidableEq, Repr

/-- A widget created by `Command`, as the attributes set on it. -/
structure GtkWidget where
  kind : WidgetKind
  /-- `gtk_button_set_relief(..., GTK_RELIEF_NONE)` was applied. -/
  relief_none : Bool
  /-- Tooltip text of the button. -/
  tooltip_text : Option String
  /-- Mnemonic label of the menu item. -/
  label : Option String
  icon_name : Option String
  icon_size : GtkIconSize
  signal : Signal
  visible : Bool
  sensitive : Bool
deriving DecidableEq, Repr

/-- `gtk_widget_set_sensitive`. -/
def gtk_widget_set_sensitive (w : GtkWidget) (sensitive : Bool) : GtkWidget :=
  { w with sensitive := sensitive }

/-- The data members of `Command`. -/
structure Command where
  m_button : Option GtkWidget
  m_menuitem : Option GtkWidget
  m_icon : Option String
  m_text : Option String
  m_command : Option CString
  m_error_text : Option String
  m_status : Int
deriving DecidableEq, Repr

namespace Command

/-- `Command::check`. -/
def check (env : Env) (c : Command) : Command × List Event :=
  let r : Command × List Event :=
    if c.m_status = WHISKERMENU_COMMAND_UNCHECKED then
      let path := env.g_find_program_in_path (str c.m_command)
      let status := if path.isSome then WHISKERMENU_COMMAND_VALID else WHISKERMENU_COMMAND_INVALID
      ({ c with m_status := status }, [Event.find_program (str c.m_command)])
    else
      (c, [])
  let c1 := r.1
  let c2 : Command :=
    match c1.m_button with
    | some b =>
      let b2 := gtk_widget_set_sensitive b (decide (c1.m_status = WHISKERMENU_COMMAND_VALID))
      { c1 with m_button := some b2 }
    | none => c1
  let c3 : Command :=
    match c2.m_menuitem with
    | some m =>
      let m2 := gtk_widget_set_sensitive m (decide (c2.m_status = WHISKERMENU_COMMAND_VALID))
      { c2 with m_menuitem := some m2 }
    | none => c2
  (c3, r.2)

/-- `Command::Command`: the member initialisers, then `check()`.  `fresh` is
the address of the block `g_strdup(command)` allocates. -/
def new (env : Env) (fresh : Nat) (icon text : Option String) (command : Option CString)
    (error_text : Option String) : Command × List Event :=
  check env
    { m_button := none
      m_menuitem := none
      m_icon := icon
      m_text := text
      m_command := g_strdup fresh command
      m_error_text := error_text
      m_status := WHISKERMENU_COMMAND_UNCHECKED }

/-- `Command::get_button`: the object and the widget returned. -/
def get_button (c : Command) : Command × GtkWidget :=
  match c.m_button with
  | some b => (c, b)
  | none =>
    let b : GtkWidget :=
      { kind := WidgetKind.button
        relief_none := true
        tooltip_text := c.m_text
        label := none
        icon_name := c.m_icon
        icon_size := GtkIconSize.GTK_ICON_SIZE_LARGE_TOOLBAR
        signal := Signal.clicked
        visible := true
        sensitive := decide (c.m_status = WHISKERMENU_COMMAND_VALID) }
    ({ c with m_button := some b }, b)

/-- `Command::get_menuitem`: the object and the widget returned. -/
def get_menuitem (c : Command) : Command × GtkWidget :=
  match c.m_menuitem with
  | some m => (c, m)
  | none =>
    let m : GtkWidget :=
      { kind := WidgetKind.image_menu_item
        relief_none := false
        tooltip_text := none
        label := c.m_text
        icon_name := c.m_icon
        icon_size := GtkIconSize.GTK_ICON_SIZE_MENU
        signal := Signal.activate
        visible := true
        sensitive := decide (c.m_status = WHISKERMENU_COMMAND_VALID) }
    ({ c with m_menuitem := some m }, m)

/-- `Command::set`.  The guard `command != m_command` compares the two
pointers.  `fresh` is the address of the block `g_strdup(command)` allocates. -/
def set (fresh : Nat) (c : Command) (command : Option CString) : Command :=
  if ptr command ≠ ptr c.m_command then
    { c with
      m_command := g_strdup fresh command
      m_status := WHISKERMENU_COMMAND_UNCHECKED }
  else
    c

/-- `Command::activated`. -/
def activated (env : Env) (c : Command) : Command × List Event :=
  match env.g_spawn_command_line_async (str c.m_command) with
  | none => (c, [Event.spawn (str c.m_command)])
  | some error =>
    (c, [Event.spawn (str c.m_command), Event.show_error error c.m_error_text])

/-- One call of a public member function on a `Command`. -/
inductive Op where
  | get_button
  | get_menuitem
  | set (fresh : Nat) (command : Option CString)
  | check
  | activated
deriving DecidableEq, Repr

/-- Perform one call in the environment current at the time of the call. -/
def step (env : Env) (c : Command) : Op → Command × List Event
  | Op.get_button => ((get_button c).1, [])
  | Op.get_menuitem => ((get_menuitem c).1, [])
  | Op.set fresh command => (set fresh c command, [])
  | Op.check => check env c
  | Op.activated => activated env c

/-- Perform a sequence of calls, each in its own environment, collecting the
trace. -/
def run : List (Env × Op) → Command → Command × List Event
  | [], c => (c, [])
  | (env, op) :: rest, c =>
    let r := step env c op
    let r2 := run rest r.1
    (r2.1, r.2 ++ r2.2)

end Command

/-- An event that is an error dialog. -/
def Event.is_dialog : Event → Bool
  | Event.show_error _ _ => true
  | _ => false

/-- An event that is a program-path lookup. -/
def Event.is_lookup : Event → Bool
  | Event.find_program _ => true
  | _ => false

/-- An event that is a spawn attempt. -/
def Event.is_spawn : Event → Bool
  | Event.spawn _ => true
  | _ => false

/-- A call sequence step that is `Command::set`. -/
def Command.Op.is_set : Command.Op → Bool
  | Command.Op.set _ _ => true
  | _ => false

/-! ## search_page.cpp -/

/-- `UINT_MAX` for a 32-bit `unsigned int`. -/
def UINT_MAX : Nat := 4294967295

/-- The members of `Query` and `Launcher` that `SearchPage` calls; their
classes are declared outside the excerpt, so they are taken as given. -/
structure Collaborators (Query Launcher : Type) where
  /-- `Query::empty`. -/
  empty : Query → Bool
  /-- `Launcher::get_search_results`, an `unsigned int`. -/
  get_search_results : Launcher → Query → Nat

/-- Subtraction of two `unsigned int` values: the difference modulo `2^32`. -/
def guint_sub (x y : Nat) : Nat :=
  (x % 4294967296 + 4294967296 - y % 4294967296) % 4294967296

/-- Conversion of an `unsigned int` to `gint` (32-bit two's complement). -/
def guint_to_gint (u : Nat) : Int :=
  if u % 4294967296 < 2147483648 then ((u % 4294967296 : Nat) : Int)
  else ((u % 4294967296 : Nat) : Int) - 4294967296

namespace SearchPage

/-- `SearchPage::on_filter`.  `launcher` is the `COLUMN_LAUNCHER` pointer that
`gtk_tree_model_get` reads from the row at `iter`; `none` is `NULL`. -/
def on_filter {Query Launcher : Type} (k : Collaborators Query Launcher) (m_query : Query)
    (launcher : Option Launcher) : Bool :=
  if k.empty m_query then
    false
  else
    match launcher with
    | none => false
    | some l => decide (k.get_search_results l m_query ≠ UINT_MAX)

/-- `SearchPage::on_sort`.  `launcher_a` and `launcher_b` are the
`COLUMN_LAUNCHER` pointers of the two rows; a failed `g_assert` aborts, which is
`none`. -/
def on_sort {Query Launcher : Type} (k : Collaborators Query Launcher)
    (launcher_a launcher_b : Option Launcher) (m_query : Query) : Option Int :=
  match launcher_a with
  | none => none
  | some a =>
    match launcher_b with
    | none => none
    | some b =>
      some (guint_to_gint
        (guint_sub (k.get_search_results a m_query) (k.get_search_results b m_query)))

/-- `GDK_Escape` of `gdkkeysyms.h`. -/
def GDK_Escape : Nat := 0xff1b

/-- `GDK_Return` of `gdkkeysyms.h`. -/
def GDK_Return : Nat := 0xff0d

/-- What `search_entry_key_press` reads and writes: the text of the search
entry (`none` when `gtk_entry_get_text` gives `NULL`), the path selected in the
view (`none` when `get_selected_path` gives `NULL`), and the paths handed to
`activate_path` so far, oldest first. -/
structure KeyPressState (Path : Type) where
  entry_text : Option String
  selected_path : Option Path
  activated_paths : List Path
deriving DecidableEq, Repr

/-- `SearchPage::search_entry_key_press`: the state afterwards and the
`gboolean` returned. -/
def search_entry_key_press {Path : Type} (keyval : Nat) (s : KeyPressState Path) :
    KeyPressState Path × Bool :=
  if keyval = GDK_Escape then
    match s.entry_text with
    | some text =>
      if text ≠ "" then
        ({ s with entry_text := some "" }, true)
      else
        (s, false)
    | none => (s, false)
  else if keyval = GDK_Return then
    match s.selected_path with
    | some path => ({ s with activated_paths := s.activated_paths ++ [path] }, true)
    | none => (s, true)
  else
    (s, false)

end SearchPage

/-- The status `check` leaves behind. -/
def Command.checked_status (env : Env) (c : Command) : Int :=
  if c.m_status = WHISKERMENU_COMMAND_UNCHECKED then
    (if (env.g_find_program_in_path (str c.m_command)).isSome then WHISKERMENU_COMMAND_VALID
      else WHISKERMENU_COMMAND_INVALID)
  else c.m_status

/-! ## Concrete data used to instantiate the theorems -/

/-- An environment in which every named program is found and every spawn
succeeds. -/
def env_all_found : Env :=
  { g_find_program_in_path := fun program => program
    g_spawn_command_line_async := fun _ => none }

/-- The error the failing environment reports. -/
def spawn_error : GError := { code := 8, message := "No such file or directory" }

/-- An environment in which no program is found and every spawn fails. -/
def env_none_found : Env :=
  { g_find_program_in_path := fun _ => none
    g_spawn_command_line_async := fun _ => some spawn_error }

/-- A caller's buffer at address 1 holding the text `ls`. -/
def buffer_ls : Option CString := some { addr := 1, text := "ls" }

/-- Another buffer, at address 2, holding the same text `ls`. -/
def buffer_ls_again : Option CString := some { addr := 2, text := "ls" }

/-- A caller's buffer at address 3 holding the text `top`. -/
def buffer_top : Option CString := some { addr := 3, text := "top" }

/-- The error text handed to the constructor in the examples. -/
def failed_text : Option String := some "Failed to run."

/-- A Command constructed on `buffer_ls` while `ls` is found; its own copy of
the text lives at address 100. -/
def command_ls : Command :=
  (Command.new env_all_found 100 (some "system-run") (some "Run") buffer_ls failed_text).1

/-- The cached status records the lookup result `found`, and every control
that exists has the sensitivity that goes with it. -/
def Command.settled (found : Bool) (c : Command) : Prop :=
  c.m_status = (if found then WHISKERMENU_COMMAND_VALID else WHISKERMENU_COMMAND_INVALID) ∧
  (∀ b, c.m_button = some b → b.sensitive = found) ∧
  (∀ m, c.m_menuitem = some m → m.sensitive = found)

/-- The Command `command_ls` after `set` with the buffer `top`, not yet checked. -/
def command_top_unchecked : Command := Command.set 200 command_ls buffer_top

/-- The Command `command_top_unchecked` after its button was created. -/
def command_top_with_button : Command := (Command.get_button command_top_unchecked).1

/-- The Command `command_ls` after its button was created. -/
def command_ls_with_button : Command := (Command.get_button command_ls).1

/-- The Command `command_ls` after its menu item was created. -/
def command_ls_with_menuitem : Command := (Command.get_menuitem command_ls).1

/-- A call sequence without `set`: both controls are created, the Command is
checked again when nothing would be found, and it is activated. -/
def calls_without_set : List (Env × Command.Op) :=
  [(env_all_found, Command.Op.get_button), (env_none_found, Command.Op.check),
    (env_none_found, Command.Op.activated), (env_all_found, Command.Op.get_menuitem)]

/-- Collaborators for the examples: a query is its text, and a launcher is
identified with the score it reports for every query. -/
def score_launchers : Collaborators String Nat :=
  { empty := fun query => decide (query = "")
    get_search_results := fun launcher _ => launcher }

/-- A query text for the examples. -/
def query_term : String := "term"

/-- The search entry holds `fire`, and the first row is selected. -/
def typing_state : SearchPage.KeyPressState (List Nat) :=
  { entry_text := some "fire", selected_path := some [0], activated_paths := [] }

/-- The search entry is empty and no row is selected. -/
def idle_state : SearchPage.KeyPressState (List Nat) :=
  { entry_text := some "", selected_path := none, activated_paths := [] }

/-- The key value of the letter `a`. -/
def GDK_a : Nat := 0x061

/-- The executable a command line names: its first blank-separated word, which
is `argv[0]` when `g_spawn_command_line_async` splits a line that uses no
quoting; `none` for a line without any word. -/
def executable_of (command_line : String) : Option String :=
  match (command_line.data.dropWhile (fun ch => ch = Char.ofNat 32)).takeWhile
      (fun ch => ch ≠ Char.ofNat 32) with
  | [] => none
  | word => some (String.mk word)

/-- The environment given by the programs on the search path, each a name with
the path of its file: the lookup finds a program by its name, and a spawn
succeeds when the executable of the command line is on the search path. -/
def env_of_search_path (programs : List (String × String)) : Env :=
  { g_find_program_in_path := fun program =>
      match program with
      | none => none
      | some name => (programs.find? (fun entry => decide (entry.1 = name))).map Prod.snd
    g_spawn_command_line_async := fun command_line =>
      match command_line with
      | none => some spawn_error
      | some line =>
        match executable_of line with
        | none => some spawn_error
        | some name =>
          if (programs.find? (fun entry => decide (entry.1 = name))).isSome then none
          else some spawn_error }

/-- A search path on which `ls` is installed. -/
def search_path_with_ls : List (String × String) := [("ls", "/bin/ls")]

/-- A caller's buffer at address 4 holding the command line `ls -l`. -/
def buffer_ls_long : Option CString := some { addr := 4, text := "ls -l" }

/-- A Command constructed on the command line `ls -l` while `ls` is on the
search path. -/
def command_ls_long : Command :=
  (Command.new (env_of_search_path search_path_with_ls) 100 (some "system-run") (some "List")
    buffer_ls_long failed_text).1

/-! ## Lemmas on `Command` -/


theorem Command.check_eq (env : Env) (c : Command) :
    (Command.check env c).1 =
      { c with
        m_status := Command.checked_status env c
        m_button := c.m_button.map (fun b =>
          gtk_widget_set_sensitive b
            (decide (Command.checked_status env c = WHISKERMENU_COMMAND_VALID)))
        m_menuitem := c.m_menuitem.map (fun m =>
          gtk_widget_set_sensitive m
            (decide (Command.checked_status env c = WHISKERMENU_COMMAND_VALID))) } := by
  rcases c with ⟨b, m, ic, tx, cmd, er, st⟩
  unfold Command.check Command.checked_status
  by_cases h : st = WHISKERMENU_COMMAND_UNCHECKED <;> cases b <;> cases m <;> simp [h]

theorem Command.check_trace (env : Env) (c : Command) :
    (Command.check env c).2 =
      if c.m_status = WHISKERMENU_COMMAND_UNCHECKED then [Event.find_program (str c.m_command)]
      else [] := by
  unfold Command.check
  by_cases h : c.m_status = WHISKERMENU_COMMAND_UNCHECKED <;> simp [h]

theorem Command.checked_status_ne_unchecked (env : Env) (c : Command) :
    Command.checked_status env c ≠ WHISKERMENU_COMMAND_UNCHECKED := by
  unfold Command.checked_status
  by_cases h : c.m_status = WHISKERMENU_COMMAND_UNCHECKED
  · by_cases f : (env.g_find_program_in_path (str c.m_command)).isSome = true <;>
      simp [h, f, WHISKERMENU_COMMAND_UNCHECKED, WHISKERMENU_COMMAND_VALID,
        WHISKERMENU_COMMAND_INVALID]
  · simp [h]

theorem Command.checked_status_of_checked (env : Env) (c : Command)
    (h : c.m_status ≠ WHISKERMENU_COMMAND_UNCHECKED) :
    Command.checked_status env c = c.m_status := by
  simp [Command.checked_status, h]

theorem str_g_strdup (fresh : Nat) (s : Option CString) : str (g_strdup fresh s) = str s := by
  cases s <;> rfl

theorem Command.check_of_checked (env : Env) (c : Command)
    (h : c.m_status ≠ WHISKERMENU_COMMAND_UNCHECKED) :
    Command.check env c =
      ({ c with
          m_button := c.m_button.map (fun b =>
            gtk_widget_set_sensitive b (decide (c.m_status = WHISKERMENU_COMMAND_VALID)))
          m_menuitem := c.m_menuitem.map (fun m =>
            gtk_widget_set_sensitive m (decide (c.m_status = WHISKERMENU_COMMAND_VALID))) },
        []) := by
  apply Prod.ext
  · rw [Command.check_eq, Command.checked_status_of_checked env c h]
  · rw [Command.check_trace]; simp [h]

theorem Command.check_status (env : Env) (c : Command) :
    (Command.check env c).1.m_status = Command.checked_status env c := by
  rw [Command.check_eq]

theorem Command.check_check (env1 env2 : Env) (c : Command) :
    Command.check env2 (Command.check env1 c).1 = ((Command.check env1 c).1, []) := by
  have hs : (Command.check env1 c).1.m_status ≠ WHISKERMENU_COMMAND_UNCHECKED := by
    rw [Command.check_status]; exact Command.checked_status_ne_unchecked env1 c
  rw [Command.check_of_checked env2 _ hs]
  apply Prod.ext
  · rw [Command.check_eq]
    rcases c with ⟨b, m, ic, tx, cmd, er, st⟩
    cases b <;> cases m <;> simp [gtk_widget_set_sensitive]
  · rfl

/-! ## The claims on `Command` -/

/-- C2: validity is checked once and cached.  When the status is already
VALID or INVALID, `check()` makes no call at all to the program-path lookup
(its trace is empty), leaves the status as it is, and gives the same result
whatever the lookup would answer now; and for every Command, a second
`check()` after a first one, even in a changed environment, makes no lookup
and leaves the whole object, hence the status, as the first one left it. -/
theorem Command.check_is_cached (env env2 : Env) (c : Command) :
    ((c.m_status = WHISKERMENU_COMMAND_VALID ∨ c.m_status = WHISKERMENU_COMMAND_INVALID) →
        (Command.check env c).2 = [] ∧
        (Command.check env c).1.m_status = c.m_status ∧
        Command.check env c = Command.check env2 c) ∧
    (Command.check env2 (Command.check env c).1).2 = [] ∧
    (Command.check env2 (Command.check env c).1).1 = (Command.check env c).1 ∧
    (Command.check env2 (Command.check env c).1).1.m_status =
      (Command.check env c).1.m_status := by
  refine ⟨?_, ?_, ?_, ?_⟩
  · intro h
    have hs : c.m_status ≠ WHISKERMENU_COMMAND_UNCHECKED := by
      rcases h with h | h <;> rw [h] <;>
        simp [WHISKERMENU_COMMAND_UNCHECKED, WHISKERMENU_COMMAND_VALID,
          WHISKERMENU_COMMAND_INVALID]
    refine ⟨?_, ?_, ?_⟩
    · rw [Command.check_of_checked env c hs]
    · rw [Command.check_of_checked env c hs]
    · rw [Command.check_of_checked env c hs, Command.check_of_checked env2 c hs]
  · rw [Command.check_check]
  · rw [Command.check_check]
  · rw [Command.check_check]

/-- Instance of C2: the constructed Command for `ls` is not looked up again,
even when nothing would be found now. -/
theorem Command.check_is_cached_witness :
    (Command.check env_none_found command_ls).2 = [] ∧
    (Command.check env_none_found command_ls).1.m_status = command_ls.m_status ∧
    Command.check env_none_found command_ls = Command.check env_all_found command_ls :=
  (Command.check_is_cached env_none_found env_all_found command_ls).1 (Or.inl (by decide))

/-- C3, as stated, fails: `command_ls` holds the text `ls` with status VALID;
`set` called with another buffer that holds the same text `ls` resets the
status to UNCHECKED, because the guard compares the pointers. -/
theorem Command.set_same_text_resets_status :
    str buffer_ls_again = str command_ls.m_command ∧
    command_ls.m_status = WHISKERMENU_COMMAND_VALID ∧
    (Command.set 200 command_ls buffer_ls_again).m_status = WHISKERMENU_COMMAND_UNCHECKED ∧
    Command.set 200 command_ls buffer_ls_again ≠ command_ls := by
  decide

/-- C3, amended: `set(s)` resets the status to UNCHECKED and stores a copy of
`s`, so that the next `check()` looks up the text of `s` and takes its status
from that lookup, whenever the pointer `s` is not the pointer the Command
holds; `set(s)` with the very pointer the Command holds leaves the whole
object unchanged; and a status that was VALID or INVALID is UNCHECKED
afterwards if and only if the two pointers differ. -/
theorem Command.set_resets_iff_pointer_differs (env : Env) (fresh : Nat) (c : Command)
    (s : Option CString) :
    (ptr s ≠ ptr c.m_command →
        (Command.set fresh c s).m_status = WHISKERMENU_COMMAND_UNCHECKED ∧
        (Command.set fresh c s).m_command = g_strdup fresh s ∧
        str (Command.set fresh c s).m_command = str s ∧
        (Command.check env (Command.set fresh c s)).2 = [Event.find_program (str s)] ∧
        (Command.check env (Command.set fresh c s)).1.m_status =
          (if (env.g_find_program_in_path (str s)).isSome then WHISKERMENU_COMMAND_VALID
            else WHISKERMENU_COMMAND_INVALID)) ∧
    (ptr s = ptr c.m_command → Command.set fresh c s = c) ∧
    (c.m_status ≠ WHISKERMENU_COMMAND_UNCHECKED →
        ((Command.set fresh c s).m_status = WHISKERMENU_COMMAND_UNCHECKED ↔
          ptr s ≠ ptr c.m_command)) := by
  refine ⟨?_, ?_, ?_⟩
  · intro h
    have e : Command.set fresh c s =
        { c with m_command := g_strdup fresh s, m_status := WHISKERMENU_COMMAND_UNCHECKED } := by
      simp [Command.set, h]
    refine ⟨?_, ?_, ?_, ?_, ?_⟩
    · rw [e]
    · rw [e]
    · rw [e]; exact str_g_strdup fresh s
    · rw [Command.check_trace, e]; simp [str_g_strdup]
    · rw [Command.check_status, e]; simp [Command.checked_status, str_g_strdup]
  · intro h
    simp [Command.set, h]
  · intro hs
    by_cases h : ptr s = ptr c.m_command
    · simp [Command.set, h, hs]
    · simp [Command.set, h]

/-- Instance of C3 amended: `command_ls` is given the buffer `top`, whose
address is not the one it holds, and then its own pointer. -/
theorem Command.set_resets_iff_pointer_differs_witness :
    (ptr buffer_top ≠ ptr command_ls.m_command ∧
      (Command.set 200 command_ls buffer_top).m_status = WHISKERMENU_COMMAND_UNCHECKED ∧
      (Command.check env_none_found (Command.set 200 command_ls buffer_top)).2 =
        [Event.find_program (str buffer_top)]) ∧
    (ptr command_ls.m_command = ptr command_ls.m_command ∧
      Command.set 200 command_ls command_ls.m_command = command_ls) ∧
    (command_ls.m_status ≠ WHISKERMENU_COMMAND_UNCHECKED ∧
      ((Command.set 200 command_ls buffer_ls_again).m_status = WHISKERMENU_COMMAND_UNCHECKED ↔
        ptr buffer_ls_again ≠ ptr command_ls.m_command)) :=
  ⟨⟨by decide,
      ((Command.set_resets_iff_pointer_differs env_none_found 200 command_ls buffer_top).1
        (by decide)).1,
      ((Command.set_resets_iff_pointer_differs env_none_found 200 command_ls buffer_top).1
        (by decide)).2.2.2.1⟩,
    ⟨rfl,
      (Command.set_resets_iff_pointer_differs env_none_found 200 command_ls
        command_ls.m_command).2.1 rfl⟩,
    ⟨by decide,
      (Command.set_resets_iff_pointer_differs env_none_found 200 command_ls
        buffer_ls_again).2.2 (by decide)⟩⟩

/-! ## Frame lemmas for the call sequences -/

theorem Command.step_error_text (env : Env) (c : Command) (op : Command.Op) :
    (Command.step env c op).1.m_error_text = c.m_error_text := by
  cases op with
  | get_button =>
    rcases c with ⟨b, m, ic, tx, cmd, er, st⟩
    cases b <;> rfl
  | get_menuitem =>
    rcases c with ⟨b, m, ic, tx, cmd, er, st⟩
    cases m <;> rfl
  | set fresh command =>
    by_cases h : ptr command = ptr c.m_command <;> simp [Command.step, Command.set, h]
  | check => simp [Command.step, Command.check_eq]
  | activated =>
    simp only [Command.step, Command.activated]
    cases env.g_spawn_command_line_async (str c.m_command) <;> rfl

theorem Command.run_error_text (steps : List (Env × Command.Op)) (c : Command) :
    (Command.run steps c).1.m_error_text = c.m_error_text := by
  induction steps generalizing c with
  | nil => rfl
  | cons hd tl ih =>
    rcases hd with ⟨env, op⟩
    simp only [Command.run]
    rw [ih, Command.step_error_text]

theorem Command.new_error_text (env : Env) (fresh : Nat) (icon text : Option String)
    (command : Option CString) (error_text : Option String) :
    (Command.new env fresh icon text command error_text).1.m_error_text = error_text := by
  simp [Command.new, Command.check_eq]

/-- C6: for every Command, whatever its cached status, `activated()` makes
exactly one spawn attempt, on the current command string, and nothing else
before it; it shows one error dialog, carrying the spawn error and the
Command's error text, when the spawn fails and none when it succeeds; it
leaves the Command (command string and status included) unchanged; and in a
Command made by the constructor and used through any sequence of calls, the
error text is still the one supplied to the constructor. -/
theorem Command.activated_spawns_once (env : Env) (c : Command) (env0 : Env) (fresh : Nat)
    (icon text : Option String) (command : Option CString) (error_text : Option String)
    (steps : List (Env × Command.Op)) :
    (Command.activated env c).1 = c ∧
    (Command.activated env c).2.filter Event.is_spawn = [Event.spawn (str c.m_command)] ∧
    (Command.activated env c).2.head? = some (Event.spawn (str c.m_command)) ∧
    (Command.activated env c).2.filter Event.is_lookup = [] ∧
    (Command.activated env c).2.filter Event.is_dialog =
      (match env.g_spawn_command_line_async (str c.m_command) with
        | none => []
        | some error => [Event.show_error error c.m_error_text]) ∧
    ((∃ e ∈ (Command.activated env c).2, e.is_dialog = true) ↔
      env.g_spawn_command_line_async (str c.m_command) ≠ none) ∧
    (Command.run steps (Command.new env0 fresh icon text command error_text).1).1.m_error_text =
      error_text := by
  refine ⟨?_, ?_, ?_, ?_, ?_, ?_, ?_⟩
  · unfold Command.activated
    cases env.g_spawn_command_line_async (str c.m_command) <;> rfl
  · unfold Command.activated
    cases env.g_spawn_command_line_async (str c.m_command) <;>
      simp [List.filter, Event.is_spawn]
  · unfold Command.activated
    cases env.g_spawn_command_line_async (str c.m_command) <;> rfl
  · unfold Command.activated
    cases env.g_spawn_command_line_async (str c.m_command) <;>
      simp [List.filter, Event.is_lookup]
  · unfold Command.activated
    cases env.g_spawn_command_line_async (str c.m_command) <;>
      simp [List.filter, Event.is_dialog]
  · unfold Command.activated
    cases env.g_spawn_command_line_async (str c.m_command) <;> simp [Event.is_dialog]
  · rw [Command.run_error_text, Command.new_error_text]

/-- Instance of C6: `command_ls` is activated when every spawn fails, and when
every spawn succeeds. -/
theorem Command.activated_spawns_once_witness :
    Command.activated env_none_found command_ls =
      (command_ls, [Event.spawn (some "ls"), Event.show_error spawn_error failed_text]) ∧
    Command.activated env_all_found command_ls = (command_ls, [Event.spawn (some "ls")]) ∧
    (Command.activated env_none_found command_ls).2.filter Event.is_spawn =
      [Event.spawn (str command_ls.m_command)] :=
  ⟨by decide, by decide,
    (Command.activated_spawns_once env_none_found command_ls env_all_found 100 none none
      buffer_ls failed_text []).2.1⟩

/-- The widget `get_button` returns is the one the Command keeps. -/
theorem Command.get_button_stored (c : Command) :
    (Command.get_button c).1.m_button = some (Command.get_button c).2 := by
  rcases c with ⟨b, m, ic, tx, cmd, er, st⟩
  cases b <;> rfl

theorem Command.get_menuitem_stored (c : Command) :
    (Command.get_menuitem c).1.m_menuitem = some (Command.get_menuitem c).2 := by
  rcases c with ⟨b, m, ic, tx, cmd, er, st⟩
  cases m <;> rfl

theorem Command.step_keeps_button (env : Env) (c : Command) (op : Command.Op)
    (hop : op ≠ Command.Op.check) (b : GtkWidget) (hb : c.m_button = some b) :
    (Command.step env c op).1.m_button = some b := by
  cases op with
  | get_button => simp [Command.step, Command.get_button, hb]
  | get_menuitem =>
    rcases c with ⟨b0, m, ic, tx, cmd, er, st⟩
    cases m <;> simpa [Command.step, Command.get_menuitem] using hb
  | set fresh command =>
    by_cases h : ptr command = ptr c.m_command <;> simp [Command.step, Command.set, h, hb]
  | check => exact absurd rfl hop
  | activated =>
    simp only [Command.step, Command.activated]
    cases env.g_spawn_command_line_async (str c.m_command) <;> exact hb

theorem Command.step_keeps_menuitem (env : Env) (c : Command) (op : Command.Op)
    (hop : op ≠ Command.Op.check) (m : GtkWidget) (hm : c.m_menuitem = some m) :
    (Command.step env c op).1.m_menuitem = some m := by
  cases op with
  | get_button =>
    rcases c with ⟨b, m0, ic, tx, cmd, er, st⟩
    cases b <;> simpa [Command.step, Command.get_button] using hm
  | get_menuitem => simp [Command.step, Command.get_menuitem, hm]
  | set fresh command =>
    by_cases h : ptr command = ptr c.m_command <;> simp [Command.step, Command.set, h, hm]
  | check => exact absurd rfl hop
  | activated =>
    simp only [Command.step, Command.activated]
    cases env.g_spawn_command_line_async (str c.m_command) <;> exact hm

theorem Command.set_frame (fresh : Nat) (c : Command) (s : Option CString) :
    (Command.set fresh c s).m_button = c.m_button ∧
    (Command.set fresh c s).m_menuitem = c.m_menuitem ∧
    (Command.set fresh c s).m_icon = c.m_icon ∧
    (Command.set fresh c s).m_text = c.m_text ∧
    (Command.set fresh c s).m_error_text = c.m_error_text := by
  by_cases h : ptr s = ptr c.m_command <;> simp [Command.set, h]

theorem Command.get_button_unchecked (c : Command)
    (hs : c.m_status = WHISKERMENU_COMMAND_UNCHECKED) (hb : c.m_button = none) :
    (Command.get_button c).2.sensitive = false := by
  rcases c with ⟨b, m, ic, tx, cmd, er, st⟩
  simp only at hs hb
  subst hs hb
  simp [Command.get_button, WHISKERMENU_COMMAND_UNCHECKED, WHISKERMENU_COMMAND_VALID]

theorem Command.get_menuitem_unchecked (c : Command)
    (hs : c.m_status = WHISKERMENU_COMMAND_UNCHECKED) (hm : c.m_menuitem = none) :
    (Command.get_menuitem c).2.sensitive = false := by
  rcases c with ⟨b, m, ic, tx, cmd, er, st⟩
  simp only at hs hm
  subst hs hm
  simp [Command.get_menuitem, WHISKERMENU_COMMAND_UNCHECKED, WHISKERMENU_COMMAND_VALID]

theorem Command.checked_status_valid_iff (env : Env) (c : Command)
    (hs : c.m_status = WHISKERMENU_COMMAND_UNCHECKED) :
    decide (Command.checked_status env c = WHISKERMENU_COMMAND_VALID) =
      (env.g_find_program_in_path (str c.m_command)).isSome := by
  unfold Command.checked_status
  cases h : (env.g_find_program_in_path (str c.m_command)).isSome <;>
    simp [hs, WHISKERMENU_COMMAND_VALID, WHISKERMENU_COMMAND_INVALID]

theorem Command.check_button_sensitive (env : Env) (c : Command)
    (hs : c.m_status = WHISKERMENU_COMMAND_UNCHECKED) (b : GtkWidget)
    (hb : (Command.check env c).1.m_button = some b) :
    b.sensitive = (env.g_find_program_in_path (str c.m_command)).isSome := by
  rw [Command.check_eq] at hb
  simp only [Option.map_eq_some'] at hb
  obtain ⟨b0, _, rfl⟩ := hb
  simp only [gtk_widget_set_sensitive]
  exact Command.checked_status_valid_iff env c hs

theorem Command.check_menuitem_sensitive (env : Env) (c : Command)
    (hs : c.m_status = WHISKERMENU_COMMAND_UNCHECKED) (m : GtkWidget)
    (hm : (Command.check env c).1.m_menuitem = some m) :
    m.sensitive = (env.g_find_program_in_path (str c.m_command)).isSome := by
  rw [Command.check_eq] at hm
  simp only [Option.map_eq_some'] at hm
  obtain ⟨m0, _, rfl⟩ := hm
  simp only [gtk_widget_set_sensitive]
  exact Command.checked_status_valid_iff env c hs

/-- C8: `set` changes only the command string and the cached status: the
button, the menu item (hence their sensitivity), the icon, the text and the
error text are as before.  A button or menu item first created after `set(s)`
with a new pointer and before the next `check()` is disabled, whatever the
lookup would answer for `s`, and the `check()` that follows gives it the
sensitivity the lookup result for `s` calls for.  In general a control first
created while the status is UNCHECKED is disabled, no call other than
`check()` changes a control that exists, and `check()` on an UNCHECKED Command
leaves every existing control sensitive exactly when the lookup finds the
executable. -/
theorem Command.set_leaves_controls (env : Env) (fresh : Nat) (c : Command)
    (s : Option CString) (op : Command.Op) :
    ((Command.set fresh c s).m_button = c.m_button ∧
      (Command.set fresh c s).m_menuitem = c.m_menuitem ∧
      (Command.set fresh c s).m_icon = c.m_icon ∧
      (Command.set fresh c s).m_text = c.m_text ∧
      (Command.set fresh c s).m_error_text = c.m_error_text) ∧
    (ptr s ≠ ptr c.m_command → c.m_button = none →
      (Command.get_button (Command.set fresh c s)).2.sensitive = false ∧
      (Command.check env (Command.get_button (Command.set fresh c s)).1).1.m_button =
        some (gtk_widget_set_sensitive (Command.get_button (Command.set fresh c s)).2
          (env.g_find_program_in_path (str s)).isSome)) ∧
    (ptr s ≠ ptr c.m_command → c.m_menuitem = none →
      (Command.get_menuitem (Command.set fresh c s)).2.sensitive = false ∧
      (Command.check env (Command.get_menuitem (Command.set fresh c s)).1).1.m_menuitem =
        some (gtk_widget_set_sensitive (Command.get_menuitem (Command.set fresh c s)).2
          (env.g_find_program_in_path (str s)).isSome)) ∧
    (c.m_status = WHISKERMENU_COMMAND_UNCHECKED → c.m_button = none →
      (Command.get_button c).2.sensitive = false) ∧
    (c.m_status = WHISKERMENU_COMMAND_UNCHECKED → c.m_menuitem = none →
      (Command.get_menuitem c).2.sensitive = false) ∧
    (op ≠ Command.Op.check → ∀ b, c.m_button = some b →
      (Command.step env c op).1.m_button = some b) ∧
    (op ≠ Command.Op.check → ∀ m, c.m_menuitem = some m →
      (Command.step env c op).1.m_menuitem = some m) ∧
    (c.m_status = WHISKERMENU_COMMAND_UNCHECKED →
      (∀ b, (Command.check env c).1.m_button = some b →
        b.sensitive = (env.g_find_program_in_path (str c.m_command)).isSome) ∧
      (∀ m, (Command.check env c).1.m_menuitem = some m →
        m.sensitive = (env.g_find_program_in_path (str c.m_command)).isSome)) := by
  have hset : ptr s ≠ ptr c.m_command → Command.set fresh c s =
      { c with m_command := g_strdup fresh s, m_status := WHISKERMENU_COMMAND_UNCHECKED } := by
    intro h; simp [Command.set, h]
  refine ⟨Command.set_frame fresh c s, ?_, ?_, Command.get_button_unchecked c,
    Command.get_menuitem_unchecked c, Command.step_keeps_button env c op,
    Command.step_keeps_menuitem env c op, ?_⟩
  · intro h hb
    have hs : (Command.set fresh c s).m_status = WHISKERMENU_COMMAND_UNCHECKED := by
      rw [hset h]
    have hn : (Command.set fresh c s).m_button = none := by rw [hset h]; exact hb
    have hc : str (Command.set fresh c s).m_command = str s := by
      rw [hset h]; exact str_g_strdup fresh s
    refine ⟨Command.get_button_unchecked _ hs hn, ?_⟩
    have hs2 : (Command.get_button (Command.set fresh c s)).1.m_status =
        WHISKERMENU_COMMAND_UNCHECKED := by
      rw [hset h]; simp [Command.get_button, hb]
    have hc2 : str (Command.get_button (Command.set fresh c s)).1.m_command = str s := by
      rw [hset h]; simp [Command.get_button, hb, str_g_strdup]
    rw [Command.check_eq]
    simp only [Command.get_button_stored, Option.map_some']
    rw [Command.checked_status_valid_iff env _ hs2, hc2]
  · intro h hm
    have hs : (Command.set fresh c s).m_status = WHISKERMENU_COMMAND_UNCHECKED := by
      rw [hset h]
    have hn : (Command.set fresh c s).m_menuitem = none := by rw [hset h]; exact hm
    refine ⟨Command.get_menuitem_unchecked _ hs hn, ?_⟩
    have hs2 : (Command.get_menuitem (Command.set fresh c s)).1.m_status =
        WHISKERMENU_COMMAND_UNCHECKED := by
      rw [hset h]; simp [Command.get_menuitem, hm]
    have hc2 : str (Command.get_menuitem (Command.set fresh c s)).1.m_command = str s := by
      rw [hset h]; simp [Command.get_menuitem, hm, str_g_strdup]
    rw [Command.check_eq]
    simp only [Command.get_menuitem_stored, Option.map_some']
    rw [Command.checked_status_valid_iff env _ hs2, hc2]
  · intro hs
    exact ⟨Command.check_button_sensitive env c hs, Command.check_menuitem_sensitive env c hs⟩

/-- Instance of C8: `command_ls` is given the buffer `top` while every program
is found; controls created before the next `check()` are disabled all the
same, and that `check()` enables them. -/
theorem Command.set_leaves_controls_witness :
    (ptr buffer_top ≠ ptr command_ls.m_command ∧ command_ls.m_button = none ∧
      (env_all_found.g_find_program_in_path (str buffer_top)).isSome = true ∧
      (Command.get_button (Command.set 200 command_ls buffer_top)).2.sensitive = false ∧
      (Command.check env_all_found
          (Command.get_button (Command.set 200 command_ls buffer_top)).1).1.m_button =
        some (gtk_widget_set_sensitive
          (Command.get_button (Command.set 200 command_ls buffer_top)).2
          (env_all_found.g_find_program_in_path (str buffer_top)).isSome)) ∧
    (command_ls.m_menuitem = none ∧
      (Command.get_menuitem (Command.set 200 command_ls buffer_top)).2.sensitive = false) ∧
    (command_top_unchecked.m_status = WHISKERMENU_COMMAND_UNCHECKED ∧
      command_top_unchecked.m_button = none ∧
      (Command.get_button command_top_unchecked).2.sensitive = false ∧
      (Command.get_menuitem command_top_unchecked).2.sensitive = false) ∧
    (command_ls_with_button.m_button = some (Command.get_button command_ls).2 ∧
      (Command.step env_all_found command_ls_with_button
        (Command.Op.set 200 buffer_top)).1.m_button = some (Command.get_button command_ls).2) ∧
    (command_ls_with_menuitem.m_menuitem = some (Command.get_menuitem command_ls).2 ∧
      (Command.step env_all_found command_ls_with_menuitem
        (Command.Op.set 200 buffer_top)).1.m_menuitem =
          some (Command.get_menuitem command_ls).2) ∧
    ((Command.check env_all_found command_top_with_button).1.m_button =
        some (gtk_widget_set_sensitive (Command.get_button command_top_unchecked).2 true) ∧
      (gtk_widget_set_sensitive (Command.get_button command_top_unchecked).2 true).sensitive =
        (env_all_found.g_find_program_in_path
          (str command_top_with_button.m_command)).isSome) :=
  ⟨⟨by decide, by decide, by decide,
      ((Command.set_leaves_controls env_all_found 200 command_ls buffer_top
        Command.Op.activated).2.1 (by decide) (by decide)).1,
      ((Command.set_leaves_controls env_all_found 200 command_ls buffer_top
        Command.Op.activated).2.1 (by decide) (by decide)).2⟩,
    ⟨by decide,
      ((Command.set_leaves_controls env_all_found 200 command_ls buffer_top
        Command.Op.activated).2.2.1 (by decide) (by decide)).1⟩,
    ⟨by decide, by decide,
      (Command.set_leaves_controls env_all_found 200 command_top_unchecked buffer_top
        Command.Op.activated).2.2.2.1 (by decide) (by decide),
      (Command.set_leaves_controls env_all_found 200 command_top_unchecked buffer_top
        Command.Op.activated).2.2.2.2.1 (by decide) (by decide)⟩,
    ⟨by decide,
      (Command.set_leaves_controls env_all_found 200 command_ls_with_button buffer_top
        (Command.Op.set 200 buffer_top)).2.2.2.2.2.1 (by decide) _ (by decide)⟩,
    ⟨by decide,
      (Command.set_leaves_controls env_all_found 200 command_ls_with_menuitem buffer_top
        (Command.Op.set 200 buffer_top)).2.2.2.2.2.2.1 (by decide) _ (by decide)⟩,
    ⟨by decide,
      ((Command.set_leaves_controls env_all_found 200 command_top_with_button buffer_top
        Command.Op.activated).2.2.2.2.2.2.2 (by decide)).1 _ (by decide)⟩⟩

/-! ## Controls of a constructed `Command` -/

theorem status_of_found_ne_unchecked (found : Bool) :
    (if found then WHISKERMENU_COMMAND_VALID else WHISKERMENU_COMMAND_INVALID) ≠
      WHISKERMENU_COMMAND_UNCHECKED := by
  cases found <;> decide

theorem status_of_found_valid (found : Bool) :
    decide ((if found then WHISKERMENU_COMMAND_VALID else WHISKERMENU_COMMAND_INVALID) =
      WHISKERMENU_COMMAND_VALID) = found := by
  cases found <;> decide

theorem Command.new_settled (env : Env) (fresh : Nat) (icon text : Option String)
    (command : Option CString) (error_text : Option String) :
    Command.settled (env.g_find_program_in_path (str command)).isSome
      (Command.new env fresh icon text command error_text).1 := by
  unfold Command.settled Command.new
  rw [Command.check_eq]
  simp [Command.checked_status, str_g_strdup]

theorem Command.check_settled (env : Env) (found : Bool) (c : Command)
    (h : Command.settled found c) : Command.settled found (Command.check env c).1 := by
  obtain ⟨h1, h2, h3⟩ := h
  have hs : c.m_status ≠ WHISKERMENU_COMMAND_UNCHECKED := by
    rw [h1]; exact status_of_found_ne_unchecked found
  rw [Command.check_of_checked env c hs]
  refine ⟨h1, ?_, ?_⟩
  · intro b hb
    simp only [Option.map_eq_some'] at hb
    obtain ⟨b0, _, rfl⟩ := hb
    simp only [gtk_widget_set_sensitive]
    rw [h1]; exact status_of_found_valid found
  · intro m hm
    simp only [Option.map_eq_some'] at hm
    obtain ⟨m0, _, rfl⟩ := hm
    simp only [gtk_widget_set_sensitive]
    rw [h1]; exact status_of_found_valid found

theorem Command.get_button_settled (found : Bool) (c : Command) (h : Command.settled found c) :
    (Command.get_button c).2.sensitive = found ∧
      Command.settled found (Command.get_button c).1 := by
  obtain ⟨h1, h2, h3⟩ := h
  rcases c with ⟨b, m, ic, tx, cmd, er, st⟩
  simp only at h1 h2 h3
  cases b with
  | some b0 => exact ⟨h2 b0 rfl, h1, h2, h3⟩
  | none =>
    have hv : decide (st = WHISKERMENU_COMMAND_VALID) = found := by
      rw [h1]; exact status_of_found_valid found
    refine ⟨hv, h1, ?_, h3⟩
    intro b hb
    simp only [Command.get_button, Option.some.injEq] at hb
    rw [← hb]; exact hv

theorem Command.get_menuitem_settled (found : Bool) (c : Command)
    (h : Command.settled found c) :
    (Command.get_menuitem c).2.sensitive = found ∧
      Command.settled found (Command.get_menuitem c).1 := by
  obtain ⟨h1, h2, h3⟩ := h
  rcases c with ⟨b, m, ic, tx, cmd, er, st⟩
  simp only at h1 h2 h3
  cases m with
  | some m0 => exact ⟨h3 m0 rfl, h1, h2, h3⟩
  | none =>
    have hv : decide (st = WHISKERMENU_COMMAND_VALID) = found := by
      rw [h1]; exact status_of_found_valid found
    refine ⟨hv, h1, h2, ?_⟩
    intro m hm
    simp only [Command.get_menuitem, Option.some.injEq] at hm
    rw [← hm]; exact hv

theorem Command.activated_fst (env : Env) (c : Command) : (Command.activated env c).1 = c := by
  unfold Command.activated
  cases env.g_spawn_command_line_async (str c.m_command) <;> rfl

theorem Command.step_settled (env : Env) (found : Bool) (c : Command) (op : Command.Op)
    (hop : op.is_set = false) (h : Command.settled found c) :
    Command.settled found (Command.step env c op).1 := by
  cases op with
  | get_button => exact (Command.get_button_settled found c h).2
  | get_menuitem => exact (Command.get_menuitem_settled found c h).2
  | set fresh command => simp [Command.Op.is_set] at hop
  | check => exact Command.check_settled env found c h
  | activated =>
    simp only [Command.step]
    rw [Command.activated_fst]; exact h

theorem Command.run_settled (found : Bool) (steps : List (Env × Command.Op)) (c : Command)
    (hsteps : ∀ st ∈ steps, st.2.is_set = false) (h : Command.settled found c) :
    Command.settled found (Command.run steps c).1 := by
  induction steps generalizing c with
  | nil => exact h
  | cons hd tl ih =>
    rcases hd with ⟨env, op⟩
    simp only [Command.run]
    apply ih
    · intro st hst
      exact hsteps st (List.mem_cons_of_mem _ hst)
    · exact Command.step_settled env found c op (hsteps (env, op) (List.mem_cons_self _ _)) h

/-- What the constructor and the getters do with the lookup: for a Command
constructed on the string `command`, the button returned by `get_button` and
the menu item returned by `get_menuitem` are sensitive exactly when
`g_find_program_in_path`, called by the constructor on the whole string,
returns a path: right after construction, and after any sequence of calls that
does not include `set`, in whatever environments those calls run.  The
constructor makes that one lookup and shows no error dialog, and `check()` on
any Command shows no error dialog. -/
theorem Command.controls_follow_lookup_of_whole_string (env : Env) (fresh : Nat)
    (icon text : Option String) (command : Option CString) (error_text : Option String)
    (steps : List (Env × Command.Op)) (env2 : Env) (c : Command) :
    (Command.get_button (Command.new env fresh icon text command error_text).1).2.sensitive =
      (env.g_find_program_in_path (str command)).isSome ∧
    (Command.get_menuitem (Command.new env fresh icon text command error_text).1).2.sensitive =
      (env.g_find_program_in_path (str command)).isSome ∧
    ((∀ st ∈ steps, st.2.is_set = false) →
      (Command.get_button
          (Command.run steps (Command.new env fresh icon text command error_text).1).1).2.sensitive =
        (env.g_find_program_in_path (str command)).isSome ∧
      (Command.get_menuitem
          (Command.run steps (Command.new env fresh icon text command error_text).1).1).2.sensitive =
        (env.g_find_program_in_path (str command)).isSome) ∧
    (Command.new env fresh icon text command error_text).2 =
      [Event.find_program (str command)] ∧
    (∀ e ∈ (Command.new env fresh icon text command error_text).2, e.is_dialog = false) ∧
    (∀ e ∈ (Command.check env2 c).2, e.is_dialog = false) := by
  have h0 := Command.new_settled env fresh icon text command error_text
  have hcheck : ∀ (en : Env) (d : Command), ∀ e ∈ (Command.check en d).2,
      e.is_dialog = false := by
    intro en d e he
    rw [Command.check_trace] at he
    by_cases hs : d.m_status = WHISKERMENU_COMMAND_UNCHECKED
    · simp only [hs, if_true, List.mem_singleton] at he
      rw [he]; rfl
    · simp [hs] at he
  refine ⟨(Command.get_button_settled _ _ h0).1, (Command.get_menuitem_settled _ _ h0).1,
    ?_, ?_, ?_, hcheck env2 c⟩
  · intro hsteps
    have h1 := Command.run_settled _ steps _ hsteps h0
    exact ⟨(Command.get_button_settled _ _ h1).1, (Command.get_menuitem_settled _ _ h1).1⟩
  · unfold Command.new
    rw [Command.check_trace]
    simp [str_g_strdup]
  · intro e he
    exact hcheck env _ e he

/-- An instance: `ls` is found when the Command is constructed; after a
call sequence without `set`, which checks again when nothing would be found,
both controls are sensitive. -/
theorem Command.controls_follow_lookup_of_whole_string_instance :
    (∀ st ∈ calls_without_set, st.2.is_set = false) ∧
    (env_all_found.g_find_program_in_path (str buffer_ls)).isSome = true ∧
    (Command.get_button
        (Command.run calls_without_set
          (Command.new env_all_found 100 none none buffer_ls failed_text).1).1).2.sensitive =
      (env_all_found.g_find_program_in_path (str buffer_ls)).isSome ∧
    (Command.get_menuitem
        (Command.run calls_without_set
          (Command.new env_all_found 100 none none buffer_ls failed_text).1).1).2.sensitive =
      (env_all_found.g_find_program_in_path (str buffer_ls)).isSome :=
  ⟨by decide, by decide,
    (Command.controls_follow_lookup_of_whole_string env_all_found 100 none none buffer_ls
      failed_text calls_without_set env_none_found command_ls).2.2.1 (by decide)⟩

/-- C1, the code at the command line `ls -l` with `ls` on the search path: the
executable of the line is `ls`, the lookup finds `ls`, and `activated()` spawns
the line without any error dialog; yet the constructor's `check()` hands the
whole line `ls -l` to the lookup, which finds no program of that name, so the
status is INVALID and both the button and the menu item are insensitive. -/
theorem Command.command_line_with_argument_disabled :
    executable_of "ls -l" = some "ls" ∧
    ((env_of_search_path search_path_with_ls).g_find_program_in_path
      (executable_of "ls -l")).isSome = true ∧
    (Command.new (env_of_search_path search_path_with_ls) 100 (some "system-run") (some "List")
      buffer_ls_long failed_text).2 = [Event.find_program (some "ls -l")] ∧
    command_ls_long.m_status = WHISKERMENU_COMMAND_INVALID ∧
    (Command.get_button command_ls_long).2.sensitive = false ∧
    (Command.get_menuitem command_ls_long).2.sensitive = false ∧
    Command.activated (env_of_search_path search_path_with_ls) command_ls_long =
      (command_ls_long, [Event.spawn (some "ls -l")]) := by
  decide

/-! ## The claims on `SearchPage` -/

theorem guint_sub_to_gint_of_range (x y : Nat) (hx : x < 4294967296) (hy : y < 4294967296)
    (hlo : -2147483648 ≤ (x : Int) - (y : Int)) (hhi : (x : Int) - (y : Int) < 2147483648) :
    guint_to_gint (guint_sub x y) = (x : Int) - (y : Int) := by
  unfold guint_to_gint guint_sub
  split_ifs with h <;> omega

theorem guint_sub_to_gint_eq_zero (x y : Nat) (hx : x < 4294967296) (hy : y < 4294967296) :
    guint_to_gint (guint_sub x y) = 0 ↔ x = y := by
  unfold guint_to_gint guint_sub
  split_ifs with h <;> omega

theorem SearchPage.on_sort_some {Query Launcher : Type} (k : Collaborators Query Launcher)
    (a b : Launcher) (q : Query) :
    SearchPage.on_sort k (some a) (some b) q =
      some (guint_to_gint (guint_sub (k.get_search_results a q) (k.get_search_results b q))) :=
  rfl

/-- C4, as stated, fails: the launchers with scores 0 and 2147483649 (both
unsigned 32-bit values, neither the no-match sentinel) have 0 below
2147483649, and `on_sort` returns the positive value 2147483647 for them. -/
theorem SearchPage.on_sort_positive_for_smaller_score :
    score_launchers.get_search_results 0 query_term <
      score_launchers.get_search_results 2147483649 query_term ∧
    score_launchers.get_search_results 2147483649 query_term < 4294967296 ∧
    SearchPage.on_sort score_launchers (some 0) (some 2147483649) query_term =
      some 2147483647 ∧
    ¬ ((2147483647 : Int) < 0) := by
  decide

/-- C4, amended: for launchers `a` and `b` with match scores `sa` and `sb`
(unsigned 32-bit values), `on_sort(a, b)` returns the unsigned difference
`sa - sb` converted to a signed 32-bit gint; that value is zero iff
`sa = sb`; and when the difference `sa - sb` of the two scores lies in the
gint range, from -2^31 up to 2^31 - 1, it is the difference itself, negative
iff `sa < sb` and positive iff `sa > sb`. -/
theorem SearchPage.on_sort_sign_in_gint_range {Query Launcher : Type}
    (k : Collaborators Query Launcher) (a b : Launcher) (q : Query)
    (ha : k.get_search_results a q < 4294967296)
    (hb : k.get_search_results b q < 4294967296) :
    SearchPage.on_sort k (some a) (some b) q =
      some (guint_to_gint (guint_sub (k.get_search_results a q) (k.get_search_results b q))) ∧
    (SearchPage.on_sort k (some a) (some b) q = some 0 ↔
      k.get_search_results a q = k.get_search_results b q) ∧
    (-2147483648 ≤ (k.get_search_results a q : Int) - (k.get_search_results b q : Int) ∧
        (k.get_search_results a q : Int) - (k.get_search_results b q : Int) < 2147483648 →
      ∃ r : Int, SearchPage.on_sort k (some a) (some b) q = some r ∧
        r = (k.get_search_results a q : Int) - (k.get_search_results b q : Int) ∧
        (r < 0 ↔ k.get_search_results a q < k.get_search_results b q) ∧
        (0 < r ↔ k.get_search_results b q < k.get_search_results a q)) := by
  refine ⟨rfl, ?_, ?_⟩
  · rw [SearchPage.on_sort_some, Option.some.injEq]
    exact guint_sub_to_gint_eq_zero _ _ ha hb
  · rintro ⟨hlo, hhi⟩
    refine ⟨_, SearchPage.on_sort_some k a b q, ?_, ?_, ?_⟩
    · exact guint_sub_to_gint_of_range _ _ ha hb hlo hhi
    · rw [guint_sub_to_gint_of_range _ _ ha hb hlo hhi]; omega
    · rw [guint_sub_to_gint_of_range _ _ ha hb hlo hhi]; omega

/-- Instance of C4 amended: scores 3 and 7. -/
theorem SearchPage.on_sort_sign_in_gint_range_witness :
    (SearchPage.on_sort score_launchers (some 3) (some 7) query_term = some 0 ↔
      (3 : Nat) = 7) ∧
    (∃ r : Int, SearchPage.on_sort score_launchers (some 3) (some 7) query_term = some r ∧
      r = ((3 : Nat) : Int) - ((7 : Nat) : Int) ∧
      (r < 0 ↔ (3 : Nat) < 7) ∧ (0 < r ↔ (7 : Nat) < 3)) :=
  ⟨(SearchPage.on_sort_sign_in_gint_range score_launchers 3 7 query_term
      (by decide) (by decide)).2.1,
    (SearchPage.on_sort_sign_in_gint_range score_launchers 3 7 query_term
      (by decide) (by decide)).2.2 (by decide)⟩

/-- C7: for match scores that are unsigned 32-bit values, when the difference
of two scores is below 2^31 in absolute value (as it is when both scores are
below 2^31), `on_sort` returns that mathematical difference, so its result has
the sign of the difference; on such scores `on_sort` is antisymmetric (the
result for the swapped pair is the negated result) and transitive (if `a` is
not after `b` and `b` is not after `c` then `a` is not after `c`, strictly
before when one of the two is strict). -/
theorem SearchPage.on_sort_consistent_on_small_differences {Query Launcher : Type}
    (k : Collaborators Query Launcher) (a b c : Launcher) (q : Query)
    (ha : k.get_search_results a q < 4294967296)
    (hb : k.get_search_results b q < 4294967296)
    (hc : k.get_search_results c q < 4294967296) :
    (-2147483648 < (k.get_search_results a q : Int) - (k.get_search_results b q : Int) ∧
        (k.get_search_results a q : Int) - (k.get_search_results b q : Int) < 2147483648 →
      SearchPage.on_sort k (some a) (some b) q =
        some ((k.get_search_results a q : Int) - (k.get_search_results b q : Int)) ∧
      SearchPage.on_sort k (some b) (some a) q =
        some (-((k.get_search_results a q : Int) - (k.get_search_results b q : Int))) ∧
      ∃ r : Int, SearchPage.on_sort k (some a) (some b) q = some r ∧
        Int.sign r =
          Int.sign ((k.get_search_results a q : Int) - (k.get_search_results b q : Int)) ∧
        (r < 0 ↔ k.get_search_results a q < k.get_search_results b q) ∧
        (r = 0 ↔ k.get_search_results a q = k.get_search_results b q) ∧
        (0 < r ↔ k.get_search_results b q < k.get_search_results a q)) ∧
    (k.get_search_results a q < 2147483648 → k.get_search_results b q < 2147483648 →
      SearchPage.on_sort k (some a) (some b) q =
        some ((k.get_search_results a q : Int) - (k.get_search_results b q : Int))) ∧
    (-2147483648 < (k.get_search_results a q : Int) - (k.get_search_results b q : Int) ∧
        (k.get_search_results a q : Int) - (k.get_search_results b q : Int) < 2147483648 →
      -2147483648 < (k.get_search_results b q : Int) - (k.get_search_results c q : Int) ∧
        (k.get_search_results b q : Int) - (k.get_search_results c q : Int) < 2147483648 →
      -2147483648 < (k.get_search_results a q : Int) - (k.get_search_results c q : Int) ∧
        (k.get_search_results a q : Int) - (k.get_search_results c q : Int) < 2147483648 →
      ∃ rab rbc rac : Int,
        SearchPage.on_sort k (some a) (some b) q = some rab ∧
        SearchPage.on_sort k (some b) (some c) q = some rbc ∧
        SearchPage.on_sort k (some a) (some c) q = some rac ∧
        (rab ≤ 0 → rbc ≤ 0 → rac ≤ 0) ∧
        (rab < 0 → rbc ≤ 0 → rac < 0) ∧
        (rab ≤ 0 → rbc < 0 → rac < 0) ∧
        (rab = 0 → rbc = 0 → rac = 0)) := by
  have key : ∀ x y : Launcher, k.get_search_results x q < 4294967296 →
      k.get_search_results y q < 4294967296 →
      -2147483648 < (k.get_search_results x q : Int) - (k.get_search_results y q : Int) →
      (k.get_search_results x q : Int) - (k.get_search_results y q : Int) < 2147483648 →
      SearchPage.on_sort k (some x) (some y) q =
        some ((k.get_search_results x q : Int) - (k.get_search_results y q : Int)) := by
    intro x y hx hy hlo hhi
    rw [SearchPage.on_sort_some, guint_sub_to_gint_of_range _ _ hx hy (by omega) hhi]
  refine ⟨?_, ?_, ?_⟩
  · rintro ⟨hlo, hhi⟩
    refine ⟨key a b ha hb hlo hhi, ?_, _, key a b ha hb hlo hhi, rfl, ?_, ?_, ?_⟩
    · rw [key b a hb ha (by omega) (by omega)]
      congr 1; omega
    · omega
    · omega
    · omega
  · intro h1 h2
    exact key a b ha hb (by omega) (by omega)
  · rintro ⟨l1, u1⟩ ⟨l2, u2⟩ ⟨l3, u3⟩
    refine ⟨_, _, _, key a b ha hb l1 u1, key b c hb hc l2 u2, key a c ha hc l3 u3, ?_, ?_, ?_, ?_⟩
    all_goals omega

/-- Instance of C7: scores 3, 5 and 9. -/
theorem SearchPage.on_sort_consistent_on_small_differences_witness :
    (SearchPage.on_sort score_launchers (some 3) (some 5) query_term =
        some (((3 : Nat) : Int) - ((5 : Nat) : Int)) ∧
      SearchPage.on_sort score_launchers (some 5) (some 3) query_term =
        some (-(((3 : Nat) : Int) - ((5 : Nat) : Int)))) ∧
    (∃ rab rbc rac : Int,
      SearchPage.on_sort score_launchers (some 3) (some 5) query_term = some rab ∧
      SearchPage.on_sort score_launchers (some 5) (some 9) query_term = some rbc ∧
      SearchPage.on_sort score_launchers (some 3) (some 9) query_term = some rac ∧
      (rab ≤ 0 → rbc ≤ 0 → rac ≤ 0) ∧
      (rab < 0 → rbc ≤ 0 → rac < 0) ∧
      (rab ≤ 0 → rbc < 0 → rac < 0) ∧
      (rab = 0 → rbc = 0 → rac = 0)) :=
  ⟨⟨((SearchPage.on_sort_consistent_on_small_differences score_launchers 3 5 9 query_term
        (by decide) (by decide) (by decide)).1 (by decide)).1,
      ((SearchPage.on_sort_consistent_on_small_differences score_launchers 3 5 9 query_term
        (by decide) (by decide) (by decide)).1 (by decide)).2.1⟩,
    (SearchPage.on_sort_consistent_on_small_differences score_launchers 3 5 9 query_term
      (by decide) (by decide) (by decide)).2.2 (by decide) (by decide) (by decide)⟩

/-- C5: `on_filter` returns true if and only if the query is not empty, the
row holds a non-null launcher, and that launcher's match score for the query
is not `UINT_MAX`; with an empty query it returns false for every row, and it
returns false for a row without a launcher. -/
theorem SearchPage.on_filter_iff {Query Launcher : Type} (k : Collaborators Query Launcher)
    (m_query : Query) (launcher : Option Launcher) :
    (SearchPage.on_filter k m_query launcher = true ↔
      k.empty m_query = false ∧
        ∃ l, launcher = some l ∧ k.get_search_results l m_query ≠ UINT_MAX) ∧
    (k.empty m_query = true → SearchPage.on_filter k m_query launcher = false) ∧
    (launcher = none → SearchPage.on_filter k m_query launcher = false) := by
  unfold SearchPage.on_filter
  cases he : k.empty m_query <;> cases launcher <;> simp

/-- Instance of C5: with the empty query a launcher that matches is not shown;
with a query, the launcher with score 2 is shown and the one with the
sentinel score is not. -/
theorem SearchPage.on_filter_iff_witness :
    SearchPage.on_filter score_launchers "" (some 2) = false ∧
    SearchPage.on_filter score_launchers query_term none = false ∧
    SearchPage.on_filter score_launchers query_term (some 2) = true ∧
    ¬ (SearchPage.on_filter score_launchers query_term (some UINT_MAX) = true) :=
  ⟨(SearchPage.on_filter_iff score_launchers "" (some 2)).2.1 (by decide),
    (SearchPage.on_filter_iff score_launchers query_term none).2.2 rfl,
    (SearchPage.on_filter_iff score_launchers query_term (some 2)).1.mpr
      ⟨by decide, 2, rfl, by decide⟩,
    fun h =>
      match (SearchPage.on_filter_iff score_launchers query_term (some UINT_MAX)).1.mp h with
      | ⟨_, _, hl, hne⟩ => hne (by cases hl; rfl)⟩

/-- C9: on Escape, `search_entry_key_press` sets the entry text to the empty
string and returns true when the text is non-empty, and returns false leaving
everything as it was when the text is empty (or absent), so that it returns
true iff the text is non-empty; on Return it returns true, activates the
selected path once when there is one and nothing when there is none, and
leaves the text and the selection as they were; on every other key it returns
false and changes nothing. -/
theorem SearchPage.search_entry_key_press_cases {Path : Type} (keyval : Nat)
    (s : SearchPage.KeyPressState Path) :
    (keyval = SearchPage.GDK_Escape →
      ((SearchPage.search_entry_key_press keyval s).2 = true ↔
        ∃ text, s.entry_text = some text ∧ text ≠ "") ∧
      ((∃ text, s.entry_text = some text ∧ text ≠ "") →
        SearchPage.search_entry_key_press keyval s =
          ({ s with entry_text := some "" }, true)) ∧
      ((s.entry_text = some "" ∨ s.entry_text = none) →
        SearchPage.search_entry_key_press keyval s = (s, false)) ∧
      (SearchPage.search_entry_key_press keyval s).1.selected_path = s.selected_path ∧
      (SearchPage.search_entry_key_press keyval s).1.activated_paths = s.activated_paths) ∧
    (keyval = SearchPage.GDK_Return →
      (SearchPage.search_entry_key_press keyval s).2 = true ∧
      (SearchPage.search_entry_key_press keyval s).1.entry_text = s.entry_text ∧
      (SearchPage.search_entry_key_press keyval s).1.selected_path = s.selected_path ∧
      (SearchPage.search_entry_key_press keyval s).1.activated_paths =
        s.activated_paths ++ s.selected_path.toList ∧
      (∀ path, s.selected_path = some path →
        (SearchPage.search_entry_key_press keyval s).1.activated_paths =
          s.activated_paths ++ [path]) ∧
      (s.selected_path = none → (SearchPage.search_entry_key_press keyval s).1 = s)) ∧
    (keyval ≠ SearchPage.GDK_Escape → keyval ≠ SearchPage.GDK_Return →
      SearchPage.search_entry_key_press keyval s = (s, false)) := by
  refine ⟨?_, ?_, ?_⟩
  · intro hk
    rcases s with ⟨text, sel, act⟩
    cases text with
    | none => simp [SearchPage.search_entry_key_press, hk]
    | some t =>
      by_cases ht : t = ""
      · simp [SearchPage.search_entry_key_press, hk, ht]
      · simp [SearchPage.search_entry_key_press, hk, ht]
  · intro hk
    have hne : SearchPage.GDK_Return ≠ SearchPage.GDK_Escape := by decide
    rcases s with ⟨text, sel, act⟩
    cases sel <;> simp [SearchPage.search_entry_key_press, hk, hne]
  · intro h1 h2
    simp [SearchPage.search_entry_key_press, h1, h2]

/-- Instance of C9: Escape, Return and the letter `a`, pressed while `fire` is
typed with the first row selected, and while the entry is empty with nothing
selected. -/
theorem SearchPage.search_entry_key_press_cases_witness :
    SearchPage.search_entry_key_press SearchPage.GDK_Escape typing_state =
      ({ typing_state with entry_text := some "" }, true) ∧
    SearchPage.search_entry_key_press SearchPage.GDK_Escape idle_state = (idle_state, false) ∧
    ((SearchPage.search_entry_key_press SearchPage.GDK_Return typing_state).2 = true ∧
      (SearchPage.search_entry_key_press SearchPage.GDK_Return typing_state).1.entry_text =
        typing_state.entry_text ∧
      (SearchPage.search_entry_key_press SearchPage.GDK_Return typing_state).1.activated_paths =
        typing_state.activated_paths ++ [[0]]) ∧
    ((SearchPage.search_entry_key_press SearchPage.GDK_Return idle_state).2 = true ∧
      (SearchPage.search_entry_key_press SearchPage.GDK_Return idle_state).1 = idle_state) ∧
    SearchPage.search_entry_key_press GDK_a typing_state = (typing_state, false) :=
  ⟨((SearchPage.search_entry_key_press_cases SearchPage.GDK_Escape typing_state).1 rfl).2.1
      ⟨"fire", rfl, by decide⟩,
    ((SearchPage.search_entry_key_press_cases SearchPage.GDK_Escape idle_state).1 rfl).2.2.1
      (Or.inl rfl),
    ⟨((SearchPage.search_entry_key_press_cases SearchPage.GDK_Return typing_state).2.1 rfl).1,
      ((SearchPage.search_entry_key_press_cases SearchPage.GDK_Return typing_state).2.1 rfl).2.1,
      ((SearchPage.search_entry_key_press_cases SearchPage.GDK_Return
        typing_state).2.1 rfl).2.2.2.2.1 [0] rfl⟩,
    ⟨((SearchPage.search_entry_key_press_cases SearchPage.GDK_Return idle_state).2.1 rfl).1,
      ((SearchPage.search_entry_key_press_cases SearchPage.GDK_Return
        idle_state).2.1 rfl).2.2.2.2.2 rfl⟩,
    (SearchPage.search_entry_key_press_cases GDK_a typing_state).2.2 (by decide) (by decide)⟩

end WhiskerMenu
